import Mathlib

/-!
Verification of the nostr-call signaling and call-lifecycle layer.

The definitions below are a shallow embedding of the TypeScript sources:
  - src/src/types/call.ts            (data model)
  - src/src/services/signaling.ts    (SignalingCoordinator, NostrService)
  - src/src/contexts/CallContext.tsx (CallProvider state machine)
  - src/src/hooks/useCallHistory.ts  (history storage, WebRTCManager)
  - src/src/utils/contactUtils.ts    (isSelfCall)
  - src/src/components/IncomingCallPopup.tsx / ContactsList (handleCall)

Stateful code is modelled as explicit state passing; external inputs
(clock values, generated ids, media-acquisition outcomes, locally
generated WebRTC signals, decryption outcomes) are parameters.
-/

namespace NostrCall

/-- Call types, from src/src/types/call.ts (CallType). -/
inductive CallType
  | audio
  | video
deriving DecidableEq, Repr

/-- Call states, from src/src/types/call.ts (CallState). -/
inductive CallState
  | idle
  | calling
  | ringing
  | connected
  | disconnected
  | failed
deriving DecidableEq, Repr

/-- Direction of a history entry, from useCallHistory.ts. -/
inductive Direction
  | incoming
  | outgoing
deriving DecidableEq, Repr

/-- Status of a history entry, from useCallHistory.ts (CallHistoryEntry.status). -/
inductive CallStatus
  | calling
  | ringing
  | connected
  | completed
  | missed
  | rejected
  | failed
deriving DecidableEq, Repr

/-- An opaque WebRTC signal payload (simple-peer SignalData): its `type`
discriminator plus the rest of the payload, both kept opaque. -/
structure SignalData where
  kind : String
  payload : String
deriving DecidableEq, Repr

/-- A signaling message, from src/src/types/call.ts (SignalingMessage):
a tagged union always carrying callId and timestamp. -/
inductive SignalingMessage
  | callOffer (callId : String) (callType : CallType) (offer : SignalData) (timestamp : Nat)
  | callAnswer (callId : String) (answer : SignalData) (timestamp : Nat)
  | iceCandidate (callId : String) (candidate : SignalData) (timestamp : Nat)
  | callHangup (callId : String) (timestamp : Nat)
  | callReject (callId : String) (reason : Option String) (timestamp : Nat)
deriving DecidableEq, Repr

/-- The callId carried by every signaling message. -/
def SignalingMessage.callId : SignalingMessage → String
  | .callOffer c _ _ _ => c
  | .callAnswer c _ _ => c
  | .iceCandidate c _ _ => c
  | .callHangup c _ => c
  | .callReject c _ _ => c

/-- SignalingCoordinator state (src/src/services/signaling.ts): the active
call id (`currentCallId`, null when none) and whether the per-peer
subscription handle (`unsubscribeSignaling`) is held. -/
structure CoordinatorState where
  currentCallId : Option String
  hasSubscription : Bool
deriving DecidableEq, Repr

/-- An observable effect of inbound message dispatch: feeding a payload into
the WebRTC manager (`this.webrtcManager.signal(...)`), i.e. a session-state
mutation. -/
inductive CoordinatorEffect
  | applySignal (s : SignalData)
deriving DecidableEq, Repr

/-- SignalingCoordinator.cleanup: invoke the stored unsubscribe function and
drop it, then clear currentCallId. -/
def SignalingCoordinator.cleanup (_st : CoordinatorState) : CoordinatorState :=
  { currentCallId := none, hasSubscription := false }

/-- SignalingCoordinator.handleSignalingMessage: ignore the message when no
call is active or its callId differs from the active one; otherwise dispatch
on the type — offers are ignored, answers and candidates are applied to the
WebRTC session, hangup and reject trigger cleanup. Returns the new state and
the session effects. -/
def SignalingCoordinator.handleSignalingMessage (st : CoordinatorState)
    (msg : SignalingMessage) : CoordinatorState × List CoordinatorEffect :=
  match st.currentCallId with
  | none => (st, [])
  | some active =>
    if msg.callId = active then
      match msg with
      | SignalingMessage.callOffer _ _ _ _ => (st, [])
      | SignalingMessage.callAnswer _ ans _ => (st, [CoordinatorEffect.applySignal ans])
      | SignalingMessage.iceCandidate _ cand _ => (st, [CoordinatorEffect.applySignal cand])
      | SignalingMessage.callHangup _ _ => (SignalingCoordinator.cleanup st, [])
      | SignalingMessage.callReject _ _ _ => (SignalingCoordinator.cleanup st, [])
    else (st, [])

/-- SignalingCoordinator.sendWebRTCSignal: wrap a locally generated WebRTC
signal in the matching SignalingMessage. For an offer the callType field is
the constant default `video` (the source literally sets
`const callType: CallType = 'video'` with the comment that it should be
passed from context). `now` stands for Date.now(). -/
def SignalingCoordinator.sendWebRTCSignal (callId : String) (signalData : SignalData)
    (now : Nat) : SignalingMessage :=
  if signalData.kind = "offer" then
    SignalingMessage.callOffer callId CallType.video signalData now
  else if signalData.kind = "answer" then
    SignalingMessage.callAnswer callId signalData now
  else
    SignalingMessage.iceCandidate callId signalData now

/-- The signal-forwarding closure wired by SignalingCoordinator.initiateCall:
for every locally generated signal it calls
`this.sendWebRTCSignal(remotePubkey, callId, signalData)`. The callType with
which the call was initiated is not forwarded — it is only logged. -/
def SignalingCoordinator.initiateCallSignalMessage (callType : CallType) (callId : String)
    (signalData : SignalData) (now : Nat) : SignalingMessage :=
  SignalingCoordinator.sendWebRTCSignal callId signalData now

/-- The decrypted and JSON-parsed content of a received kind-1004 record,
projected to the fields the validation reads: the `type` and `callId`
members of the inner JSON, none when absent. -/
structure ParsedMessage where
  msgType : Option String
  callId : Option String
deriving DecidableEq, Repr

/-- JavaScript truthiness of a string-valued JSON field: present and
non-empty. -/
def truthyField : Option String → Bool
  | none => false
  | some s => s ≠ ""

/-- The per-event acceptance logic of NostrService.subscribeToSignaling:
a record whose decryption or JSON parse fails (`none` input) is dropped;
otherwise the message is dropped when `!message.type || !message.callId`,
and surfaced to the handler when both are truthy. -/
def NostrService.processSignalingEvent (decrypted : Option ParsedMessage) :
    Option ParsedMessage :=
  match decrypted with
  | none => none
  | some m => if truthyField m.msgType && truthyField m.callId then some m else none

/-- The per-event acceptance logic of NostrService.subscribeToIncomingCalls:
a record whose decryption or JSON parse fails is dropped; otherwise the
message is surfaced to the handler exactly when `message.type === 'call-offer'`.
No other field is validated. -/
def NostrService.processIncomingCallEvent (decrypted : Option ParsedMessage) :
    Option ParsedMessage :=
  match decrypted with
  | none => none
  | some m => if m.msgType = some "call-offer" then some m else none

/-- A call history entry, from useCallHistory.ts (CallHistoryEntry). -/
structure CallHistoryEntry where
  id : String
  remotePubkey : String
  callType : CallType
  direction : Direction
  status : CallStatus
  startTime : Nat
  endTime : Option Nat
  duration : Option Nat
deriving DecidableEq, Repr

/-- addCallToHistory from useCallHistory.ts: prepend the new entry and keep
the first 50 (`[newEntry, ...prev].slice(0, 50)`). The generated id is part
of the entry argument (id generation draws on Math.random, an external). -/
def addCallToHistory (newEntry : CallHistoryEntry) (prev : List CallHistoryEntry) :
    List CallHistoryEntry :=
  (newEntry :: prev).take 50

/-- The update record of updateCallHistory: Partial of CallHistoryEntry with
the id field excluded at the type level (`Partial<Omit<CallHistoryEntry, 'id'>>`).
A `some` field is present in the update object and replaces the entry field. -/
structure HistoryUpdate where
  remotePubkey : Option String
  callType : Option CallType
  direction : Option Direction
  status : Option CallStatus
  startTime : Option Nat
  endTime : Option Nat
  duration : Option Nat
deriving DecidableEq, Repr

/-- The object spread `{ ...entry, ...updates }`: fields present in the
update replace the entry fields; id is not an update field, so it stays. -/
def applyHistoryUpdate (entry : CallHistoryEntry) (u : HistoryUpdate) : CallHistoryEntry :=
  { id := entry.id
    remotePubkey := u.remotePubkey.getD entry.remotePubkey
    callType := u.callType.getD entry.callType
    direction := u.direction.getD entry.direction
    status := u.status.getD entry.status
    startTime := u.startTime.getD entry.startTime
    endTime := match u.endTime with | some t => some t | none => entry.endTime
    duration := match u.duration with | some d => some d | none => entry.duration }

/-- updateCallHistory from useCallHistory.ts: map over the stored list,
replacing the entry whose id matches with the spread of the updates. -/
def updateCallHistory (id : String) (u : HistoryUpdate) (hist : List CallHistoryEntry) :
    List CallHistoryEntry :=
  hist.map (fun entry => if entry.id = id then applyHistoryUpdate entry u else entry)

/-- Call session metadata, from src/src/types/call.ts (CallSession). -/
structure CallSession where
  callId : String
  remotePubkey : String
  callType : CallType
  isInitiator : Bool
  state : CallState
  startTime : Option Nat
  endTime : Option Nat
deriving DecidableEq, Repr

/-- MediaState, from src/src/types/call.ts. -/
structure MediaState where
  audioEnabled : Bool
  videoEnabled : Bool
  isScreenSharing : Bool
deriving DecidableEq, Repr

/-- The offer message carried by a pending incoming call (CallOfferMessage). -/
structure CallOffer where
  callId : String
  callType : CallType
  offer : SignalData
  timestamp : Nat
deriving DecidableEq, Repr

/-- The pending incoming-call descriptor of CallContext.tsx (IncomingCallData). -/
structure IncomingCallData where
  remotePubkey : String
  offer : CallOffer
  callType : CallType
deriving DecidableEq, Repr

/-- WebRTCManager resource state: the peer connection, the local and remote
streams and the statistics-polling interval, each an opaque handle or null. -/
structure WebRTCState where
  peer : Option Nat
  localStream : Option Nat
  remoteStream : Option Nat
  statsInterval : Option Nat
deriving DecidableEq, Repr

/-- WebRTCManager.cleanup: stop stats monitoring, stop and drop the local and
remote streams, destroy and drop the peer. -/
def WebRTCManager.cleanup (_w : WebRTCState) : WebRTCState :=
  { peer := none, localStream := none, remoteStream := none, statsInterval := none }

/-- The caller-visible state held by CallProvider (CallContext.tsx). -/
structure ProviderState where
  callState : CallState
  currentSession : Option CallSession
  localStream : Option Nat
  remoteStream : Option Nat
  mediaState : MediaState
  incomingCall : Option IncomingCallData
  webrtc : WebRTCState
  signaling : CoordinatorState
  history : List CallHistoryEntry
deriving DecidableEq, Repr

/-- CallProvider.cleanup (CallContext.tsx): clean up the WebRTC manager and
the signaling coordinator, clear the incoming-call descriptor, return to
idle, drop the session and both streams, and reset MediaState to its
defaults. The stored history is not touched. -/
def CallProvider.cleanup (s : ProviderState) : ProviderState :=
  { s with
    webrtc := WebRTCManager.cleanup s.webrtc
    signaling := SignalingCoordinator.cleanup s.signaling
    incomingCall := none
    callState := CallState.idle
    currentSession := none
    localStream := none
    remoteStream := none
    mediaState := { audioEnabled := true, videoEnabled := true, isScreenSharing := false } }

/-- The incoming-call listener installed by CallProvider (CallContext.tsx,
subscribeToIncomingCalls callback): when the current call state is not idle
the offer is ignored and the state returned unchanged; when idle, the
pending incoming-call descriptor is set and the state becomes ringing.
The listener never writes a history entry. -/
def CallProvider.onIncomingCallOffer (s : ProviderState) (senderPubkey : String)
    (offer : CallOffer) : ProviderState :=
  if s.callState ≠ CallState.idle then s
  else
    { s with
      incomingCall := some { remotePubkey := senderPubkey, offer := offer,
                             callType := offer.callType }
      callState := CallState.ringing }

/-- CallProvider.toggleAudio: flip audioEnabled (the WebRTC track toggle has
no observable effect on ProviderState). -/
def CallProvider.toggleAudio (s : ProviderState) : ProviderState :=
  { s with mediaState := { s.mediaState with audioEnabled := !s.mediaState.audioEnabled } }

/-- CallProvider.toggleVideo: flip videoEnabled. -/
def CallProvider.toggleVideo (s : ProviderState) : ProviderState :=
  { s with mediaState := { s.mediaState with videoEnabled := !s.mediaState.videoEnabled } }

/-- CallProvider.startScreenShare, success path: set isScreenSharing. -/
def CallProvider.startScreenShareOk (s : ProviderState) : ProviderState :=
  { s with mediaState := { s.mediaState with isScreenSharing := true } }

/-- CallProvider.stopScreenShare, success path: clear isScreenSharing. -/
def CallProvider.stopScreenShareOk (s : ProviderState) : ProviderState :=
  { s with mediaState := { s.mediaState with isScreenSharing := false } }

/-- CallProvider.rejectCall: with a pending incoming call, add a rejected
history entry (duration 0), send call-reject for its callId, clear the
descriptor and return to idle; otherwise do nothing. Returns the new state
and the messages sent. -/
def CallProvider.rejectCall (s : ProviderState) (now : Nat) (newId : String) :
    ProviderState × List SignalingMessage :=
  match s.incomingCall with
  | none => (s, [])
  | some ic =>
    let entry : CallHistoryEntry :=
      { id := newId, remotePubkey := ic.remotePubkey, callType := ic.callType
        direction := Direction.incoming, status := CallStatus.rejected
        startTime := now, endTime := some now, duration := some 0 }
    ({ s with
        history := addCallToHistory entry s.history
        incomingCall := none
        callState := CallState.idle },
     [SignalingMessage.callReject ic.offer.callId none now])

/-- Math.round((endMs - startMs) / 1000) for the millisecond clock values
the code subtracts, as used by updateHistoryStatus. -/
def msDiffToSec (startMs endMs : Nat) : Nat :=
  (endMs - startMs + 500) / 1000

/-- The updateHistoryStatus helper defined inside startCall
(CallContext.tsx): update the most recent entry (index 0) in place with the
new status, the end time and the duration since callStartTime. -/
def updateHistoryStatusFirst (status : CallStatus) (callStartTime endNow : Nat)
    (hist : List CallHistoryEntry) : List CallHistoryEntry :=
  match hist with
  | [] => []
  | e :: rest =>
    { e with status := status, endTime := some endNow,
             duration := some (msDiffToSec callStartTime endNow) } :: rest

/-- The outcome of one startCall attempt: the call states set in order, the
signaling messages sent over the transport, and the stored history after
the synchronous part of the attempt. -/
structure StartCallResult where
  stateTrace : List CallState
  sent : List SignalingMessage
  history : List CallHistoryEntry
deriving DecidableEq, Repr

/-- CallProvider.startCall (CallContext.tsx): first a `calling` history
entry is stored, then the state is set to calling and local media is
requested. If media acquisition fails, the catch branch sets the state to
failed, updates the stored entry to failed and runs cleanup (which returns
to idle); signaling is never initiated, so nothing is sent. If media
succeeds, signaling is wired and every locally generated WebRTC signal is
wrapped by sendWebRTCSignal and sent. Inputs that the environment supplies
are parameters: the clock at start (`now`) and at failure (`endNow`), the
generated entry id, the generated callId, the media outcome and the signals
the peer generates. -/
def CallProvider.startCall (remotePubkey : String) (callType : CallType)
    (prevHistory : List CallHistoryEntry) (now endNow : Nat) (newId callId : String)
    (mediaResult : Except String Unit) (peerSignals : List SignalData) : StartCallResult :=
  let entry : CallHistoryEntry :=
    { id := newId, remotePubkey := remotePubkey, callType := callType
      direction := Direction.outgoing, status := CallStatus.calling
      startTime := now, endTime := none, duration := none }
  let hist1 := addCallToHistory entry prevHistory
  match mediaResult with
  | Except.error _ =>
    { stateTrace := [CallState.calling, CallState.failed, CallState.idle]
      sent := []
      history := updateHistoryStatusFirst CallStatus.failed now endNow hist1 }
  | Except.ok _ =>
    { stateTrace := [CallState.calling]
      sent := peerSignals.map (fun sig => SignalingCoordinator.sendWebRTCSignal callId sig now)
      history := hist1 }

/-- isSelfCall from src/src/utils/contactUtils.ts: false when no current
user pubkey is known, otherwise case-insensitive equality of the pubkeys.
Neither CallProvider.startCall nor SignalingCoordinator.initiateCall calls
it — the check appears only in one enhanced UI variant of the contacts
list, not in the initiation routine. -/
def isSelfCall (targetPubkey : String) (currentUserPubkey : Option String) : Bool :=
  match currentUserPubkey with
  | none => false
  | some u => targetPubkey.toLower == u.toLower

/-- The call-initiation effect of the routed CallScreen page: on mount,
when a target pubkey is present in the URL parameters, the call state is
idle and no incoming call is pending, startCall is invoked with that pubkey
and call type. The target is never compared against the local identity. -/
def CallScreen.autoStartCall (targetPubkey : Option String) (callType : CallType)
    (callState : CallState) (incomingCall : Option IncomingCallData)
    (prevHistory : List CallHistoryEntry) (now endNow : Nat) (newId callId : String)
    (mediaResult : Except String Unit) (peerSignals : List SignalData) :
    Option StartCallResult :=
  match targetPubkey with
  | none => none
  | some pk =>
    if callState = CallState.idle ∧ incomingCall = none then
      some (CallProvider.startCall pk callType prevHistory now endNow newId callId
        mediaResult peerSignals)
    else none

/-- A sample entry used by concrete witnesses. -/
def sampleEntry : CallHistoryEntry :=
  { id := "1000-abc"
    remotePubkey := "peer-a"
    callType := CallType.audio
    direction := Direction.outgoing
    status := CallStatus.completed
    startTime := 1000
    endTime := some 2000
    duration := some 1 }

/-- A sample inbound offer used by concrete witnesses. -/
def sampleOffer : CallOffer :=
  { callId := "call-1", callType := CallType.audio
    offer := { kind := "offer", payload := "sdp" }, timestamp := 5 }

/-- A sample provider state in an active call, used by concrete witnesses. -/
def busyState : ProviderState :=
  { callState := CallState.connected
    currentSession := some
      { callId := "call-0", remotePubkey := "peer-a", callType := CallType.video
        isInitiator := true, state := CallState.connected, startTime := some 10,
        endTime := none }
    localStream := some 1
    remoteStream := some 2
    mediaState := { audioEnabled := true, videoEnabled := true, isScreenSharing := false }
    incomingCall := none
    webrtc := { peer := some 1, localStream := some 1, remoteStream := some 2,
                statsInterval := some 3 }
    signaling := { currentCallId := some "call-0", hasSubscription := true }
    history := [sampleEntry] }

/-- A provider state whose MediaState differs from the defaults (audio
muted, screen sharing on), used by the C9 counterexample. -/
def mutedState : ProviderState :=
  { busyState with
    mediaState := { audioEnabled := false, videoEnabled := true, isScreenSharing := true } }

end NostrCall

namespace NostrCall

/-- One insertion step preserves the form `(e :: h).take n`: capping an
already capped list caps once. -/
theorem take_cons_take (n : Nat) (e : CallHistoryEntry) (l : List CallHistoryEntry) :
    (e :: l.take n).take n = (e :: l).take n := by
  cases n with
  | zero => simp
  | succ m => simp [List.take_succ_cons, List.take_take, Nat.min_eq_left (Nat.le_succ m)]

/-- Folding insertions over a capped store equals capping the uncapped
prepend-all result. -/
theorem foldl_addCallToHistory (es : List CallHistoryEntry) (init : List CallHistoryEntry) :
    es.foldl (fun h e => addCallToHistory e h) (init.take 50)
      = (es.reverse ++ init).take 50 := by
  induction es generalizing init with
  | nil => simp
  | cons e es ih =>
    have step : addCallToHistory e (init.take 50) = (e :: init).take 50 := by
      simpa [addCallToHistory] using take_cons_take 50 e init
    calc (e :: es).foldl (fun h e => addCallToHistory e h) (init.take 50)
        = es.foldl (fun h e => addCallToHistory e h) ((e :: init).take 50) := by
          simp [List.foldl_cons, step]
      _ = (es.reverse ++ (e :: init)).take 50 := ih (e :: init)
      _ = ((e :: es).reverse ++ init).take 50 := by simp

/-- C8: for every sequence of more than 50 insertions into a stored history
of at most 50 entries, the stored collection afterwards is exactly the 50
most recently inserted entries, newest first, and has length exactly 50. -/
theorem history_retention_cap (es init : List CallHistoryEntry)
    (hinit : init.length ≤ 50) (hn : 50 < es.length) :
    es.foldl (fun h e => addCallToHistory e h) init = es.reverse.take 50 ∧
      (es.foldl (fun h e => addCallToHistory e h) init).length = 50 := by
  have hfold : es.foldl (fun h e => addCallToHistory e h) init
      = (es.reverse ++ init).take 50 := by
    have h0 : init.take 50 = init := List.take_of_length_le hinit
    calc es.foldl (fun h e => addCallToHistory e h) init
        = es.foldl (fun h e => addCallToHistory e h) (init.take 50) := by rw [h0]
      _ = (es.reverse ++ init).take 50 := foldl_addCallToHistory es init
  have hlen : 50 ≤ es.reverse.length := by
    rw [List.length_reverse]; omega
  have happ : (es.reverse ++ init).take 50 = es.reverse.take 50 :=
    List.take_append_of_le_length hlen
  refine ⟨hfold.trans happ, ?_⟩
  rw [hfold.trans happ, List.length_take, List.length_reverse]
  omega

/-- Witness for C8 at a concrete run of 51 insertions into an empty store. -/
theorem history_retention_cap_witness :
    (List.replicate 51 sampleEntry).foldl (fun h e => addCallToHistory e h) []
        = (List.replicate 51 sampleEntry).reverse.take 50 ∧
      ((List.replicate 51 sampleEntry).foldl (fun h e => addCallToHistory e h) []).length = 50 :=
  history_retention_cap (List.replicate 51 sampleEntry) [] (by simp) (by simp)

/-- C10: updateCallHistory preserves the length and order of the history and
the id of every entry; every entry whose id differs from the given id is
unchanged; and when no entry carries the given id the history is unchanged. -/
theorem updateCallHistory_frame (hist : List CallHistoryEntry) (id : String)
    (u : HistoryUpdate) :
    (updateCallHistory id u hist).length = hist.length ∧
      (updateCallHistory id u hist).map CallHistoryEntry.id
        = hist.map CallHistoryEntry.id ∧
      List.Forall₂ (fun e e' => e.id ≠ id → e' = e) hist (updateCallHistory id u hist) ∧
      ((∀ e ∈ hist, e.id ≠ id) → updateCallHistory id u hist = hist) := by
  refine ⟨by simp [updateCallHistory], ?_, ?_, ?_⟩
  · induction hist with
    | nil => simp [updateCallHistory]
    | cons e es ih =>
      by_cases h : e.id = id <;>
        simp [updateCallHistory, h, applyHistoryUpdate] at ih ⊢ <;> exact ih
  · induction hist with
    | nil => simp [updateCallHistory]
    | cons e es ih =>
      refine List.Forall₂.cons ?_ ih
      intro hne
      simp [if_neg hne]
  · intro hall
    induction hist with
    | nil => simp [updateCallHistory]
    | cons e es ih =>
      have he : e.id ≠ id := hall e (by simp)
      have hes : ∀ e ∈ es, e.id ≠ id := fun x hx => hall x (by simp [hx])
      simp only [updateCallHistory, List.map_cons, if_neg he] at ih ⊢
      rw [ih hes]

/-- C1: every inbound Offer observed while the call state is not idle is
ignored entirely — for any sequence of inbound Offers, the whole provider
state (call state, pending incoming-call descriptor, history) is unchanged. -/
theorem offers_ignored_while_not_idle (s : ProviderState)
    (offers : List (String × CallOffer)) (h : s.callState ≠ CallState.idle) :
    offers.foldl (fun st p => CallProvider.onIncomingCallOffer st p.1 p.2) s = s := by
  induction offers with
  | nil => rfl
  | cons o os ih =>
    have hstep : CallProvider.onIncomingCallOffer s o.1 o.2 = s := by
      simp [CallProvider.onIncomingCallOffer, h]
    simpa [List.foldl_cons, hstep] using ih

/-- Witness for C1: two offers delivered while connected change nothing. -/
theorem offers_ignored_while_not_idle_witness :
    List.foldl (fun st p => CallProvider.onIncomingCallOffer st p.1 p.2) busyState
      [("peer-b", sampleOffer), ("peer-c", sampleOffer)] = busyState :=
  offers_ignored_while_not_idle busyState
    [("peer-b", sampleOffer), ("peer-c", sampleOffer)] (by decide)

/-- C2: an inbound signaling message whose callId is not the active one
(including when no call is active) is discarded by handleSignalingMessage:
the Coordinator state is returned unchanged and no session effect occurs,
regardless of the message type. -/
theorem mismatched_callId_discarded (st : CoordinatorState) (msg : SignalingMessage)
    (h : st.currentCallId ≠ some msg.callId) :
    SignalingCoordinator.handleSignalingMessage st msg = (st, []) := by
  cases hcc : st.currentCallId with
  | none => simp [SignalingCoordinator.handleSignalingMessage, hcc]
  | some active =>
    have hne : ¬ msg.callId = active := by
      intro he
      exact h (by rw [hcc, he])
    simp [SignalingCoordinator.handleSignalingMessage, hcc, hne]

/-- Witness for C2: a hangup for a different callId leaves the Coordinator
untouched. -/
theorem mismatched_callId_discarded_witness :
    SignalingCoordinator.handleSignalingMessage
        { currentCallId := some "call-a", hasSubscription := true }
        (SignalingMessage.callHangup "call-b" 0)
      = ({ currentCallId := some "call-a", hasSubscription := true }, []) :=
  mismatched_callId_discarded
    { currentCallId := some "call-a", hasSubscription := true }
    (SignalingMessage.callHangup "call-b" 0) (by decide)

/-- C3 (code bug): the initiation routine has no self-call guard. With the
local identity self-pk as the URL target, the CallScreen auto-start invokes
startCall, which never compares the target against the local identity: the
state leaves idle (calling is set), a calling history entry is stored, and
once the peer generates its offer signal an Offer is sent to the self
target — no SelfCallNotAllowed rejection anywhere on the path. -/
theorem self_call_not_rejected :
    CallScreen.autoStartCall (some "self-pk") CallType.audio CallState.idle none [] 0 0
        "id-1" "call-1" (Except.ok ()) [{ kind := "offer", payload := "sdp" }]
      = some
        { stateTrace := [CallState.calling],
          sent := [SignalingMessage.callOffer "call-1" CallType.video
            { kind := "offer", payload := "sdp" } 0],
          history := [
            { id := "id-1", remotePubkey := "self-pk", callType := CallType.audio,
              direction := Direction.outgoing, status := CallStatus.calling,
              startTime := 0, endTime := none, duration := none }] } := by
  decide

/-- C4 (code bug): the Offer message produced for the first locally generated
signal of an audio call carries callType video — initiateCall does not
forward its callType to sendWebRTCSignal, which hardcodes the default. -/
theorem audio_call_offer_carries_video :
    SignalingCoordinator.initiateCallSignalMessage CallType.audio "call-1"
        { kind := "offer", payload := "sdp" } 1000
      = SignalingMessage.callOffer "call-1" CallType.video
          { kind := "offer", payload := "sdp" } 1000 := by
  decide

/-- C5: when media acquisition fails during startCall, the state becomes
calling, then failed, then idle via cleanup; no signaling message is ever
sent; and exactly one history entry results from the attempt, with status
failed (prepended to the capped previous history). -/
theorem media_failure_no_offer (remotePubkey : String) (callType : CallType)
    (prevHistory : List CallHistoryEntry) (now endNow : Nat) (newId callId : String)
    (err : String) (peerSignals : List SignalData) :
    (CallProvider.startCall remotePubkey callType prevHistory now endNow newId callId
        (Except.error err) peerSignals).sent = [] ∧
      (CallProvider.startCall remotePubkey callType prevHistory now endNow newId callId
        (Except.error err) peerSignals).stateTrace
        = [CallState.calling, CallState.failed, CallState.idle] ∧
      (CallProvider.startCall remotePubkey callType prevHistory now endNow newId callId
        (Except.error err) peerSignals).history
        = { id := newId, remotePubkey := remotePubkey, callType := callType
            direction := Direction.outgoing, status := CallStatus.failed
            startTime := now, endTime := some endNow
            duration := some (msDiffToSec now endNow) } :: prevHistory.take 49 :=
  ⟨rfl, rfl, rfl⟩

/-- C6 counterexample: on the inbound-offer subscription, a record whose
decrypted JSON has a type of call-offer but no callId at all is surfaced to
the handler — it is accepted as signaling input although the callId field is
missing, contradicting the claim for that receive path. -/
theorem incoming_call_path_skips_callId_check :
    NostrService.processIncomingCallEvent
        (some { msgType := some "call-offer", callId := none })
      = some { msgType := some "call-offer", callId := none } ∧
      truthyField ({ msgType := some "call-offer", callId := none } : ParsedMessage).callId
        = false := by
  decide

/-- C6 as amended: a record is surfaced on the per-peer signaling path iff it
decrypted and parsed successfully and both type and callId are present and
non-empty; on the inbound-offer path it is surfaced iff it decrypted and
parsed successfully and its type equals call-offer — the callId is not
validated there. In both cases the surfaced message is the decrypted one. -/
theorem record_acceptance_characterization (d : Option ParsedMessage) :
    ((NostrService.processSignalingEvent d).isSome = true ↔
      ∃ m, d = some m ∧ truthyField m.msgType = true ∧ truthyField m.callId = true) ∧
    ((NostrService.processIncomingCallEvent d).isSome = true ↔
      ∃ m, d = some m ∧ m.msgType = some "call-offer") ∧
    (∀ m, NostrService.processSignalingEvent d = some m → d = some m) ∧
    (∀ m, NostrService.processIncomingCallEvent d = some m → d = some m) := by
  cases d with
  | none =>
    refine ⟨by simp [NostrService.processSignalingEvent],
      by simp [NostrService.processIncomingCallEvent],
      fun m hm => by simp [NostrService.processSignalingEvent] at hm,
      fun m hm => by simp [NostrService.processIncomingCallEvent] at hm⟩
  | some m =>
    refine ⟨?_, ?_, ?_, ?_⟩
    · by_cases h : (truthyField m.msgType && truthyField m.callId) = true
      · rw [Bool.and_eq_true] at h
        simp [NostrService.processSignalingEvent, h.1, h.2]
      · rw [Bool.and_eq_true] at h
        simp only [NostrService.processSignalingEvent]
        rw [if_neg (by simpa using h)]
        simp only [Option.isSome_none, Bool.false_eq_true, false_iff]
        rintro ⟨m', hm, h1, h2⟩
        cases hm
        exact h ⟨h1, h2⟩
    · by_cases h : m.msgType = some "call-offer"
      · simp [NostrService.processIncomingCallEvent, h]
      · simp only [NostrService.processIncomingCallEvent]
        rw [if_neg h]
        simp only [Option.isSome_none, Bool.false_eq_true, false_iff]
        rintro ⟨m', hm, h1⟩
        cases hm
        exact h h1
    · intro m' hm'
      simp only [NostrService.processSignalingEvent] at hm'
      split at hm'
      · exact hm' ▸ rfl
      · exact absurd hm' (by simp)
    · intro m' hm'
      simp only [NostrService.processIncomingCallEvent] at hm'
      split at hm'
      · exact hm' ▸ rfl
      · exact absurd hm' (by simp)

/-- C7: CallProvider.cleanup (which invokes both WebRTCManager.cleanup and
SignalingCoordinator.cleanup) is idempotent — running it twice equals
running it once, so running it on an already clean state changes nothing —
it is a total function (never throws), and afterwards there is no active
callId, no subscription, the state is idle, and there is no session and no
stream. -/
theorem cleanup_idempotent (s : ProviderState) :
    CallProvider.cleanup (CallProvider.cleanup s) = CallProvider.cleanup s ∧
      (CallProvider.cleanup s).signaling.currentCallId = none ∧
      (CallProvider.cleanup s).signaling.hasSubscription = false ∧
      (CallProvider.cleanup s).callState = CallState.idle ∧
      (CallProvider.cleanup s).currentSession = none ∧
      (CallProvider.cleanup s).localStream = none ∧
      (CallProvider.cleanup s).remoteStream = none :=
  ⟨rfl, rfl, rfl, rfl, rfl, rfl, rfl⟩

/-- C9 counterexample: call teardown does change MediaState — cleaning up a
state with audio muted and screen sharing active resets both fields, so an
operation other than the user toggles mutates the record, contradicting the
claim. -/
theorem cleanup_mutates_mediaState :
    (CallProvider.cleanup mutedState).mediaState ≠ mutedState.mediaState := by
  decide

/-- C9 as amended: MediaState is mutated only by the explicit user toggle
actions — each of which changes exactly its own field — and by call
teardown (cleanup), which resets all three fields to the defaults; the
other provider operations (incoming-offer listener, rejectCall) leave it
unchanged. -/
theorem mediaState_mutation_characterization (s : ProviderState) (sender : String)
    (offer : CallOffer) (now : Nat) (newId : String) :
    (CallProvider.cleanup s).mediaState
        = { audioEnabled := true, videoEnabled := true, isScreenSharing := false } ∧
      (CallProvider.onIncomingCallOffer s sender offer).mediaState = s.mediaState ∧
      (CallProvider.rejectCall s now newId).1.mediaState = s.mediaState ∧
      (CallProvider.toggleAudio s).mediaState
        = { s.mediaState with audioEnabled := !s.mediaState.audioEnabled } ∧
      (CallProvider.toggleVideo s).mediaState
        = { s.mediaState with videoEnabled := !s.mediaState.videoEnabled } ∧
      (CallProvider.startScreenShareOk s).mediaState
        = { s.mediaState with isScreenSharing := true } ∧
      (CallProvider.stopScreenShareOk s).mediaState
        = { s.mediaState with isScreenSharing := false } := by
  refine ⟨rfl, ?_, ?_, rfl, rfl, rfl, rfl⟩
  · rw [CallProvider.onIncomingCallOffer]
    split <;> rfl
  · rcases hic : s.incomingCall with _ | ic <;> simp [CallProvider.rejectCall, hic]

end NostrCall
